import Mathlib

/-!
Verification of the SSR_Research synthetic-survey engine.

Shallow embedding of:
- `backend/app/services/persona_generation.py` (sample distribution,
  seeded persona generation),
- `src/ssr/calculator.py`, `src/ssr/utils.py`, `src/ssr/anchors.py`
  (anchor-based semantic scoring),
- `src/personas/generator.py` (targeted generation),
- `src/survey/validator.py` and `src/survey/executor.py` (response
  validation, retry loop, token-bucket rate limiter).

Python floats are modelled as exact rationals (`ℚ`) where the code only
adds/multiplies/divides, and as reals (`ℝ`) where square roots appear
(cosine similarity).  numpy vectors are `List ℚ`.
-/

namespace SSR

/-! ## Sample distribution (`distribute_samples_by_archetype`)

An archetype is represented by its `share_ratio` (the only field the
arithmetic reads; `segment_id`/`segment_name` are formatting only). -/

/-- One entry of the distribution plan: allocated `count`, the input
`share_ratio` and the derived `actual_ratio = count / total_samples`. -/
structure PlanEntry where
  count : ℤ
  share_ratio : ℚ
  actual_ratio : ℚ
  deriving Repr, DecidableEq

/-- Python `sorted(archetypes, key=lambda x: x.get("share_ratio", 0), reverse=True)`:
stable descending sort by share ratio. -/
def sortByShareDesc (ratios : List ℚ) : List ℚ :=
  ratios.mergeSort (fun a b => decide (b ≤ a))

/-- The allocation loop of `distribute_samples_by_archetype`: every
archetype but the last gets `int(total_samples * share_ratio)`
(truncation = floor for nonnegative ratios), the last gets
`total_samples - allocated`. -/
def distGo (total : ℕ) : List ℚ → ℤ → List PlanEntry
  | [], _ => []
  | [r], allocated => [⟨(total : ℤ) - allocated, r, ((total : ℤ) - allocated : ℤ) / (total : ℚ)⟩]
  | r :: r2 :: rest, allocated =>
      let c : ℤ := ⌊(total : ℚ) * r⌋
      ⟨c, r, (c : ℚ) / (total : ℚ)⟩ :: distGo total (r2 :: rest) (allocated + c)

/-- `distribute_samples_by_archetype(archetypes, total_samples)`. -/
def distribute_samples_by_archetype (ratios : List ℚ) (total : ℕ) : List PlanEntry :=
  distGo total (sortByShareDesc ratios) 0

/-- The allocated counts of a plan. -/
def planCounts (plan : List PlanEntry) : List ℤ :=
  plan.map (·.count)

lemma distGo_counts_sum (total : ℕ) (l : List ℚ) (allocated : ℤ) (h : l ≠ []) :
    (planCounts (distGo total l allocated)).sum = (total : ℤ) - allocated := by
  induction l generalizing allocated with
  | nil => exact absurd rfl h
  | cons r rest ih =>
    cases rest with
    | nil => simp [distGo, planCounts]
    | cons r2 rest2 =>
      have := ih (allocated + ⌊(total : ℚ) * r⌋) (by simp)
      simp only [planCounts, distGo, List.map_cons, List.sum_cons] at this ⊢
      rw [this]
      ring

lemma distGo_counts_nonneg (total : ℕ) (l : List ℚ) (allocated : ℤ)
    (hnn : ∀ r ∈ l, 0 ≤ r)
    (hbound : (allocated : ℚ) + (total : ℚ) * l.sum ≤ (total : ℚ)) :
    ∀ c ∈ planCounts (distGo total l allocated), 0 ≤ c := by
  induction l generalizing allocated with
  | nil => simp [distGo, planCounts]
  | cons r rest ih =>
    cases rest with
    | nil =>
      simp only [distGo, planCounts, List.map_cons, List.map_nil, List.mem_singleton]
      intro c hc
      subst hc
      have h1 : (0 : ℚ) ≤ (total : ℚ) * r := by
        have := hnn r (by simp)
        positivity
      have h2 : (allocated : ℚ) ≤ (total : ℚ) := by
        simp only [List.sum_cons, List.sum_nil, add_zero] at hbound
        linarith
      have h3 : allocated ≤ (total : ℤ) := by exact_mod_cast h2
      omega
    | cons r2 rest2 =>
      simp only [distGo, planCounts, List.map_cons, List.mem_cons]
      rintro c (rfl | hc)
      · have h1 : (0 : ℚ) ≤ (total : ℚ) * r := by
          have := hnn r (by simp)
          positivity
        exact Int.le_floor.mpr (by exact_mod_cast h1)
      · refine ih (allocated + ⌊(total : ℚ) * r⌋) (fun x hx => hnn x (by simp [hx])) ?_ c hc
        have hfloor : ((⌊(total : ℚ) * r⌋ : ℤ) : ℚ) ≤ (total : ℚ) * r := Int.floor_le _
        push_cast
        simp only [List.sum_cons] at hbound ⊢
        nlinarith [hfloor]

lemma distGo_length (total : ℕ) (l : List ℚ) (allocated : ℤ) :
    (distGo total l allocated).length = l.length := by
  induction l generalizing allocated with
  | nil => simp [distGo]
  | cons r rest ih =>
    cases rest with
    | nil => simp [distGo]
    | cons r2 rest2 => simp [distGo, ih]

lemma sortByShareDesc_perm (ratios : List ℚ) :
    (sortByShareDesc ratios).Perm ratios :=
  List.mergeSort_perm ratios _

/-! ## Embedding vectors

numpy `float64` vectors are modelled as `List ℚ`; `np.dot` is the sum of
pointwise products (`zipWith` truncates at the shorter list, which never
fires on the equal-dimension inputs the code uses). -/

/-- An embedding vector. -/
abbrev EmbQ := List ℚ

/-- `np.dot(a, b)` for 1-D vectors. -/
def dotQ (a b : EmbQ) : ℚ :=
  (List.zipWith (· * ·) a b).sum

/-- Pointwise vector subtraction (`a - b` on numpy arrays). -/
def subQ (a b : EmbQ) : EmbQ :=
  List.zipWith (· - ·) a b

/-- Squared Euclidean norm, `np.linalg.norm(a) ** 2 = a · a`. -/
def normSq (a : EmbQ) : ℚ :=
  dotQ a a

lemma dotQ_comm (a b : EmbQ) : dotQ a b = dotQ b a := by
  induction a generalizing b with
  | nil => cases b <;> simp [dotQ]
  | cons x xs ih =>
    cases b with
    | nil => simp [dotQ]
    | cons y ys =>
      simp only [dotQ, List.zipWith_cons_cons, List.sum_cons] at ih ⊢
      rw [ih, mul_comm]

lemma subQ_self (a : EmbQ) : subQ a a = List.replicate a.length 0 := by
  induction a with
  | nil => simp [subQ]
  | cons x xs ih =>
    have ih' := ih
    simp only [subQ] at ih'
    simp [subQ, List.replicate_succ, ih']

lemma dotQ_replicate_zero (n : ℕ) (b : EmbQ) :
    dotQ (List.replicate n 0) b = 0 := by
  induction n generalizing b with
  | zero => simp [dotQ]
  | succ k ih =>
    cases b with
    | nil => simp [dotQ]
    | cons y ys => simp [dotQ, List.replicate_succ] at ih ⊢; exact ih ys

lemma dotQ_sub_left (a b c : EmbQ) (h : a.length = b.length) :
    dotQ (subQ a b) c = dotQ a c - dotQ b c := by
  induction a generalizing b c with
  | nil =>
    cases b with
    | nil => simp [dotQ, subQ]
    | cons y ys => simp at h
  | cons x xs ih =>
    cases b with
    | nil => simp at h
    | cons y ys =>
      cases c with
      | nil => simp [dotQ, subQ]
      | cons z zs =>
        have ih' := ih ys zs (by simpa using h)
        simp only [dotQ, subQ] at ih'
        simp only [subQ, dotQ, List.zipWith_cons_cons, List.sum_cons]
        rw [ih']
        ring

lemma dotQ_sub_right (a b c : EmbQ) (h : b.length = c.length) :
    dotQ a (subQ b c) = dotQ a b - dotQ a c := by
  rw [dotQ_comm, dotQ_sub_left b c a h, dotQ_comm b a, dotQ_comm c a]

lemma normSq_eq_zero_iff_dot_all (a : EmbQ) (ha : normSq a = 0) (b : EmbQ) :
    dotQ a b = 0 := by
  induction a generalizing b with
  | nil => simp [dotQ]
  | cons x xs ih =>
    simp only [normSq, dotQ, List.zipWith_cons_cons, List.sum_cons] at ha
    have hx : x = 0 ∧ (List.zipWith (· * ·) xs xs).sum = 0 := by
      have hsq : 0 ≤ x * x := mul_self_nonneg x
      have hrest : 0 ≤ (List.zipWith (· * ·) xs xs).sum := by
        apply List.sum_nonneg
        intro q hq
        have hq' : ∃ a ∈ xs, a * a = q := by simpa using hq
        obtain ⟨a, _, rfl⟩ := hq'
        exact mul_self_nonneg a
      constructor
      · nlinarith
      · nlinarith
    cases b with
    | nil => simp [dotQ]
    | cons y ys =>
      simp only [dotQ, List.zipWith_cons_cons, List.sum_cons]
      rw [hx.1]
      have := ih (by simpa [normSq, dotQ] using hx.2) ys
      simp only [dotQ] at this
      rw [this]
      ring

/-! ## Projection scoring (`SSRCalculator.calculate_projection_with_outlier_detection`)

The projection path uses only dot products, subtraction and division, so
it stays inside `ℚ` and is fully executable. -/

/-- `OutlierType` from `calculator.py`. -/
inductive OutlierType where
  | NORMAL
  | EXTREME_NEGATIVE
  | EXTREME_POSITIVE
  deriving Repr, DecidableEq

/-- `SSRResult` from `calculator.py` (score, raw projection, outlier
classification). -/
structure SSRResult where
  score : ℚ
  raw_projection : ℚ
  outlier_type : OutlierType
  is_outlier : Bool
  deriving Repr, DecidableEq

/-- `SSRCalculator.calculate_projection_with_outlier_detection(response_vec)`
for a calculator whose anchors are `pos` / `neg`. -/
def calculate_projection_with_outlier_detection (pos neg r : EmbQ) : SSRResult :=
  let axis := subQ pos neg
  let axis_norm_sq := dotQ axis axis
  if axis_norm_sq = 0 then
    { score := 1/2, raw_projection := 1/2, outlier_type := .NORMAL, is_outlier := false }
  else
    let raw_projection := dotQ (subQ r neg) axis / axis_norm_sq
    let outlier_type : OutlierType :=
      if raw_projection < 0 then .EXTREME_NEGATIVE
      else if 1 < raw_projection then .EXTREME_POSITIVE
      else .NORMAL
    let is_outlier : Bool := decide (raw_projection < 0 ∨ 1 < raw_projection)
    { score := min (max raw_projection 0) 1
      raw_projection := raw_projection
      outlier_type := outlier_type
      is_outlier := is_outlier }

/-- `SSRCalculator.calculate_projection(response_vec)`: the score field of
the outlier-detecting variant. -/
def calculate_projection (pos neg r : EmbQ) : ℚ :=
  (calculate_projection_with_outlier_detection pos neg r).score

/-- The `scores` array of
`SSRCalculator.calculate_batch_with_outlier_detection(response_vecs)`,
which is what `calculate_batch(..., method="projection")` returns.
numpy's vectorized `np.dot(centered, axis) / axis_norm_sq` and `np.clip`
act row-wise, i.e. elementwise over the response list. -/
def calculate_batch_projection_scores (pos neg : EmbQ) (rs : List EmbQ) : List ℚ :=
  let axis := subQ pos neg
  let axis_norm_sq := dotQ axis axis
  if axis_norm_sq = 0 then
    rs.map (fun _ => 1/2)
  else
    rs.map (fun v => min (max (dotQ (subQ v neg) axis / axis_norm_sq) 0) 1)

/-! ## Cosine-similarity scoring (`utils.cosine_similarity`,
`SSRCalculator.calculate_simple`, `calculate_batch(method="simple")`)

Norms introduce square roots, so these live in `ℝ`.  The source guard
`norm_a == 0 or norm_b == 0` is equivalent to the squared-norm test
(`‖a‖ = 0 ↔ a · a = 0`), which keeps the branch decidable. -/

noncomputable section

/-- `np.linalg.norm(a)`. -/
def normR (a : EmbQ) : ℝ :=
  Real.sqrt ((normSq a : ℚ) : ℝ)

/-- `utils.cosine_similarity(vec_a, vec_b)` (identical to
`anchors._cosine_similarity`). -/
def cosine_similarity (a b : EmbQ) : ℝ :=
  if normSq a = 0 ∨ normSq b = 0 then 0
  else ((dotQ a b : ℚ) : ℝ) / (normR a * normR b)

/-- `SSRCalculator.calculate_simple(response_vec)` with anchors `pos` / `neg`:
`score = ((sim_pos - sim_neg) / 2 + 1) / 2`. -/
def calculate_simple (pos neg r : EmbQ) : ℝ :=
  let sim_pos := cosine_similarity r pos
  let sim_neg := cosine_similarity r neg
  ((sim_pos - sim_neg) / 2 + 1) / 2

/-- The `method == "simple"` branch of `SSRCalculator.calculate_batch`:
`sims = dots / (norms_resp * norm_anchor + 1e-10)`, then the same
normalization — note the `1e-10` stabilizer in the denominator, absent
from the single-item path. -/
def calculate_batch_simple (pos neg : EmbQ) (rs : List EmbQ) : List ℝ :=
  rs.map (fun v =>
    let sim_pos := ((dotQ v pos : ℚ) : ℝ) / (normR v * normR pos + 1 / 10 ^ 10)
    let sim_neg := ((dotQ v neg : ℚ) : ℝ) / (normR v * normR neg + 1 / 10 ^ 10)
    ((sim_pos - sim_neg) / 2 + 1) / 2)

lemma normSq_nonneg (a : EmbQ) : 0 ≤ normSq a := by
  unfold normSq dotQ
  apply List.sum_nonneg
  intro q hq
  have hq' : ∃ x ∈ a, x * x = q := by simpa using hq
  obtain ⟨x, _, rfl⟩ := hq'
  exact mul_self_nonneg x

lemma normR_sq (a : EmbQ) : normR a * normR a = ((normSq a : ℚ) : ℝ) := by
  have h : (0 : ℝ) ≤ ((normSq a : ℚ) : ℝ) := by exact_mod_cast normSq_nonneg a
  exact Real.mul_self_sqrt h

lemma normR_ne_zero (a : EmbQ) (h : normSq a ≠ 0) : normR a ≠ 0 := by
  rw [normR]
  rw [Real.sqrt_ne_zero']
  have := normSq_nonneg a
  have : (0 : ℚ) < normSq a := lt_of_le_of_ne this (Ne.symm h)
  exact_mod_cast this

lemma cosine_self (a : EmbQ) (h : normSq a ≠ 0) : cosine_similarity a a = 1 := by
  rw [cosine_similarity, if_neg (by tauto), normR_sq]
  rw [show dotQ a a = normSq a from rfl, div_self]
  exact_mod_cast h

lemma cosine_comm (a b : EmbQ) : cosine_similarity a b = cosine_similarity b a := by
  by_cases h : normSq a = 0 ∨ normSq b = 0
  · rw [cosine_similarity, if_pos h, cosine_similarity, if_pos (or_comm.mp h)]
  · rw [cosine_similarity, if_neg h, cosine_similarity,
      if_neg (fun hc => h (or_comm.mp hc)), dotQ_comm, mul_comm]

end

/-! ## Anchor orthogonality validation (`anchors.validate_anchor_orthogonality`)

The `message` field of the Python dataclass is pure string formatting and
is not modelled; the remaining fields are. -/

/-- `AnchorValidationResult` (without the formatted `message`). -/
structure AnchorValidationResult where
  is_valid : Bool
  similarity : ℝ
  warning_level : String
  suggested_alternative : Option (String × String)

/-- `SUGGESTED_ALTERNATIVES["high_contrast"]`. -/
def SUGGESTED_high_contrast : String × String :=
  ("I absolutely love this and must have it immediately.",
   "I completely hate this and would never consider it.")

/-- `SUGGESTED_ALTERNATIVES["extreme_polar"]`. -/
def SUGGESTED_extreme_polar : String × String :=
  ("This is perfect. Take my money right now.",
   "This is worthless garbage. Absolutely not.")

/-- `SIMILARITY_WARNING_THRESHOLD = 0.6`. -/
noncomputable def SIMILARITY_WARNING_THRESHOLD : ℝ := 3/5

/-- `SIMILARITY_CRITICAL_THRESHOLD = 0.8`. -/
noncomputable def SIMILARITY_CRITICAL_THRESHOLD : ℝ := 4/5

section
open scoped Classical

/-- `validate_anchor_orthogonality(pos_embedding, neg_embedding,
warning_threshold, critical_threshold)`. -/
noncomputable def validate_anchor_orthogonality
    (pos neg : EmbQ) (warning_threshold critical_threshold : ℝ) :
    AnchorValidationResult :=
  let similarity := cosine_similarity pos neg
  if critical_threshold ≤ similarity then
    { is_valid := false, similarity := similarity, warning_level := "critical",
      suggested_alternative := some SUGGESTED_extreme_polar }
  else if warning_threshold ≤ similarity then
    { is_valid := true, similarity := similarity, warning_level := "warning",
      suggested_alternative := some SUGGESTED_high_contrast }
  else
    { is_valid := true, similarity := similarity, warning_level := "ok",
      suggested_alternative := none }

end

/-! ## Targeted persona generation (`personas/generator.generate_personas_targeted`)

`generate_persona_hybrid()` draws from Python's global `random`; the
stream of candidate personas it produces is abstracted as an oracle
`gen : ℕ → Persona` indexed by the attempt counter.  The filtering loop
and the shortfall behaviour are translated exactly. -/

/-- The fields of `Persona` that `generate_personas_targeted` filters on. -/
structure Persona where
  age : ℕ
  gender : String
  location : String
  income_bracket : String
  occupation : String
  deriving Repr, DecidableEq

/-- The `target_demographics` filter dict.  Python tests each key with
truthiness, so an absent key and an empty list behave the same. -/
structure TargetDemographics where
  age_range : Option (ℕ × ℕ)
  gender : Option (List String)
  location : Option (List String)
  income_bracket : Option (List String)
  occupation : Option (List String)
  deriving Repr, DecidableEq

/-- Python `if target_demographics.get(key): if persona.attr not in values:
continue` — an empty filter list is falsy and therefore skipped. -/
def passFilter (filter : Option (List String)) (v : String) : Bool :=
  match filter with
  | none => true
  | some [] => true
  | some vs => vs.contains v

/-- The per-persona acceptance test of the generation loop. -/
def matchesTarget (t : TargetDemographics) (p : Persona) : Bool :=
  (match t.age_range with
   | none => true
   | some (lo, hi) => decide (lo ≤ p.age ∧ p.age ≤ hi)) &&
  passFilter t.gender p.gender &&
  passFilter t.location p.location &&
  passFilter t.income_bracket p.income_bracket &&
  passFilter t.occupation p.occupation

/-- The `while len(personas) < sample_size and attempts < max_attempts`
loop; `fuel` is the number of attempts still allowed, `attempts` the
0-based index fed to the candidate oracle. -/
def targetedGo (gen : ℕ → Persona) (t : TargetDemographics) (sampleSize : ℕ) :
    ℕ → ℕ → List Persona → List Persona × ℕ
  | 0, attempts, acc => (acc, attempts)
  | fuel + 1, attempts, acc =>
    if acc.length < sampleSize then
      let p := gen attempts
      let acc' := if matchesTarget t p then acc ++ [p] else acc
      targetedGo gen t sampleSize fuel (attempts + 1) acc'
    else (acc, attempts)

/-- `generate_personas_targeted(sample_size, target_demographics, max_attempts)`:
on shortfall the source RAISES `ValueError` whose message reports only the
produced count — modelled as `Except.error` carrying that count.  The
partial population is discarded. -/
def generate_personas_targeted (gen : ℕ → Persona) (sampleSize : ℕ)
    (t : TargetDemographics) (maxAttempts : ℕ) : Except ℕ (List Persona) :=
  let res := targetedGo gen t sampleSize maxAttempts 0 []
  if res.1.length < sampleSize then Except.error res.1.length
  else Except.ok res.1

lemma targetedGo_matches (gen : ℕ → Persona) (t : TargetDemographics)
    (sampleSize : ℕ) (fuel attempts : ℕ) (acc : List Persona)
    (hacc : ∀ p ∈ acc, matchesTarget t p = true) :
    ∀ p ∈ (targetedGo gen t sampleSize fuel attempts acc).1, matchesTarget t p = true := by
  induction fuel generalizing attempts acc with
  | zero => simpa [targetedGo] using hacc
  | succ k ih =>
    simp only [targetedGo]
    split
    · apply ih
      split
      · intro p hp
        rcases List.mem_append.mp hp with h | h
        · exact hacc p h
        · simpa using List.mem_singleton.mp h ▸ (by assumption)
      · exact hacc
    · exact hacc

/-! ## Response validation (`survey/validator.validate_llm_response`)

The `NUMERIC_PATTERNS` regexes are compiled to character-level matchers
over `List Char`.  `re.search` with `re.IGNORECASE` is modelled by
lowercasing the text and trying the matcher at every position (each
matcher also receives the previous character, for `\b`).  For these
specific patterns greedy matching without backtracking is equivalent to
regex semantics: every `X*`/`X?` item is followed by an item whose first
character cannot belong to `X`. -/

/-- Python regex `\s` (ASCII whitespace as used by `str.strip` too). -/
def isSpaceC (c : Char) : Bool :=
  c == ' ' || c == '\t' || c == '\n' || c == '\r' || c == '\x0b' || c == '\x0c'

/-- Python regex `\w` (ASCII): letters, digits, underscore. -/
def isWordC (c : Char) : Bool :=
  c.isDigit || c.isAlpha || c == '_'

/-- `\d+`: at least one digit, consumed greedily. -/
def eatDigits1 : List Char → Option (List Char)
  | [] => none
  | c :: r => if c.isDigit then some (r.dropWhile Char.isDigit) else none

/-- `\s*`. -/
def eatSpacesStar (l : List Char) : List Char :=
  l.dropWhile isSpaceC

/-- `\s+`. -/
def eatSpaces1 : List Char → Option (List Char)
  | [] => none
  | c :: r => if isSpaceC c then some (r.dropWhile isSpaceC) else none

/-- A literal. -/
def eatLit : List Char → List Char → Option (List Char)
  | [], l => some l
  | _ :: _, [] => none
  | c :: cs, x :: xs => if c == x then eatLit cs xs else none

/-- `(?:w\s+)?`: optional word followed by mandatory whitespace. -/
def optWord (w : List Char) (l : List Char) : List Char :=
  match eatLit w l with
  | some r =>
    match eatSpaces1 r with
    | some r2 => r2
    | none => l
  | none => l

/-- `\b` against the previous character. -/
def wordBoundaryPrev (prev : Option Char) : Bool :=
  match prev with
  | none => true
  | some c => !isWordC c

/-- `\b` against the rest of the input. -/
def boundaryAfter (l : List Char) : Bool :=
  match l with
  | [] => true
  | c :: _ => !isWordC c

/-- `\d+\s*out of\s*\d+`. -/
def pat_out_of (_ : Option Char) (l : List Char) : Bool :=
  match eatDigits1 l with
  | some r =>
    match eatLit "out of".data (eatSpacesStar r) with
    | some r2 => (eatDigits1 (eatSpacesStar r2)).isSome
    | none => false
  | none => false

/-- `\d+/\d+`. -/
def pat_slash (_ : Option Char) (l : List Char) : Bool :=
  match eatDigits1 l with
  | some ('/' :: r2) => (eatDigits1 r2).isSome
  | _ => false

/-- `rating:?\s*\d+`. -/
def pat_rating (_ : Option Char) (l : List Char) : Bool :=
  match eatLit "rating".data l with
  | some r =>
    let r := match r with
      | ':' :: r2 => r2
      | _ => r
    (eatDigits1 (eatSpacesStar r)).isSome
  | none => false

/-- `score:?\s*\d+`. -/
def pat_score (_ : Option Char) (l : List Char) : Bool :=
  match eatLit "score".data l with
  | some r =>
    let r := match r with
      | ':' :: r2 => r2
      | _ => r
    (eatDigits1 (eatSpacesStar r)).isSome
  | none => false

/-- `\d+\s*stars?` (an optional trailing `s` never affects matching). -/
def pat_stars (_ : Option Char) (l : List Char) : Bool :=
  match eatDigits1 l with
  | some r => (eatLit "star".data (eatSpacesStar r)).isSome
  | none => false

/-- `\b[1-9]0?\s*(?:out of|\/)\s*10\b`. -/
def pat_x_of_10 (prev : Option Char) (l : List Char) : Bool :=
  wordBoundaryPrev prev &&
  match l with
  | c :: r =>
    (decide ('1' ≤ c) && decide (c ≤ '9')) &&
    (let r := match r with
       | '0' :: r2 => r2
       | _ => r
     let r := eatSpacesStar r
     let finish := fun (r2 : List Char) =>
       match eatSpacesStar r2 with
       | '1' :: '0' :: rest => boundaryAfter rest
       | _ => false
     match eatLit "out of".data r with
     | some r2 => finish r2
     | none =>
       match r with
       | '/' :: r2 => finish r2
       | _ => false)
  | [] => false

/-- `\brate\s+(?:it\s+)?(?:a\s+)?\d+\b`. -/
def pat_rate (prev : Option Char) (l : List Char) : Bool :=
  wordBoundaryPrev prev &&
  match eatLit "rate".data l with
  | some r =>
    match eatSpaces1 r with
    | some r =>
      let r := optWord "it".data r
      let r := optWord "a".data r
      match eatDigits1 r with
      | some rest => boundaryAfter rest
      | none => false
    | none => false
  | none => false

/-- `NUMERIC_PATTERNS`, in source order. -/
def NUMERIC_PATTERNS : List (Option Char → List Char → Bool) :=
  [pat_out_of, pat_slash, pat_rating, pat_score, pat_stars, pat_x_of_10, pat_rate]

/-- `re.search`: try the matcher at every position, offering the previous
character for word boundaries. -/
def searchGo (m : Option Char → List Char → Bool) :
    Option Char → List Char → Bool
  | prev, [] => m prev []
  | prev, c :: r => m prev (c :: r) || searchGo m (some c) r

/-- `re.search(pattern, text, re.IGNORECASE)` on an already-lowercased text. -/
def regexSearch (m : Option Char → List Char → Bool) (text : List Char) : Bool :=
  searchGo m none text

/-- The apostrophe character (several `AI_PHRASES` contain it). -/
def apoS : String := String.singleton (Char.ofNat 39)

/-- `AI_PHRASES` from `validator.py`. -/
def AI_PHRASES : List String :=
  ["as an ai", "i am an ai", "i" ++ apoS ++ "m an ai", "language model",
   "as a language model", "as an artificial", "i cannot",
   "i can" ++ apoS ++ "t actually", "i don" ++ apoS ++ "t have personal",
   "i don" ++ apoS ++ "t have preferences", "i" ++ apoS ++ "m not able to",
   "as a helpful assistant", "i am programmed", "my programming"]

/-- `str.strip()`. -/
def stripChars (l : List Char) : List Char :=
  ((l.dropWhile isSpaceC).reverse.dropWhile isSpaceC).reverse

/-- Whether `needle` starts `haystack`. -/
def startsWithC : List Char → List Char → Bool
  | [], _ => true
  | _ :: _, [] => false
  | c :: cs, x :: xs => c == x && startsWithC cs xs

/-- Python `needle in haystack` on strings: substring containment. -/
def containsSub (needle : List Char) : List Char → Bool
  | [] => startsWithC needle []
  | x :: xs => startsWithC needle (x :: xs) || containsSub needle xs

/-- The distinct error messages `validate_llm_response` can return; only
the numeric-rating one contains the substring `"numeric rating"` that the
retry loop tests for.  `patternIdx` is the index of the first matching
pattern (the message interpolates that pattern). -/
inductive ValidationMsg where
  | tooShortOrEmpty
  | numericRating (patternIdx : ℕ)
  | characterBreak
  | ok
  deriving Repr, DecidableEq

/-- Index of the first numeric-rating pattern matching the text
(case-insensitively). -/
def findNumericPatternIdx (text : List Char) : Option ℕ :=
  NUMERIC_PATTERNS.findIdx? (fun m => regexSearch m (text.map Char.toLower))

/-- `validate_llm_response(response_text)`.  Python's leading
`if not response_text or len(response_text.strip()) < 10` collapses to the
strip-length test (an empty string strips to length 0 < 10). -/
def validate_llm_response (text : String) : Bool × ValidationMsg :=
  if (stripChars text.data).length < 10 then (false, .tooShortOrEmpty)
  else
    match findNumericPatternIdx text.data with
    | some i => (false, .numericRating i)
    | none =>
      if AI_PHRASES.any (fun ph => containsSub ph.data (text.data.map Char.toLower)) then
        (false, .characterBreak)
      else (true, .ok)

/-- `"numeric rating" in error_msg`. -/
def msgMentionsNumericRating : ValidationMsg → Bool
  | .numericRating _ => true
  | _ => false

/-! ## Retry loop (`survey/executor.get_purchase_opinion_with_retry`)

The external LLM call is abstracted as an oracle
`call : attempt → prompt-kind → outcome`; `time.sleep` backoff is a
no-op for the control flow modelled here.  Token/cost bookkeeping of the
success dict is not modelled. -/

/-- Which user prompt is sent: `create_survey_prompt` or
`create_reinforced_prompt`. -/
inductive PromptKind where
  | survey
  | reinforced
  deriving Repr, DecidableEq

/-- Outcome of one `client.chat.completions.create` call, as discriminated
by the `except` clauses of the source. -/
inductive CallOutcome where
  | success (text : String)
  | rateLimited
  | apiError
  | otherError
  deriving Repr, DecidableEq

/-- The fields of the returned dict relevant here. -/
structure RetryResult where
  response_text : String
  attempts : ℕ
  deriving Repr, DecidableEq

/-- The `for attempt in range(max_retries)` loop.  `fuel` is the number of
iterations left (`maxRetries - attempt`), `reinforced` the sticky flag. -/
def retryGo (call : ℕ → PromptKind → CallOutcome) (maxRetries : ℕ) :
    ℕ → ℕ → Bool → Option RetryResult
  | 0, _, _ => none
  | fuel + 1, attempt, reinforced =>
    let prompt := if reinforced then PromptKind.reinforced else PromptKind.survey
    match call attempt prompt with
    | .success text =>
      match validate_llm_response text with
      | (true, _) => some ⟨text, attempt + 1⟩
      | (false, msg) =>
        if msgMentionsNumericRating msg && decide (attempt < maxRetries - 1) then
          retryGo call maxRetries fuel (attempt + 1) true
        else
          retryGo call maxRetries fuel (attempt + 1) reinforced
    | .rateLimited => retryGo call maxRetries fuel (attempt + 1) reinforced
    | .apiError =>
      if attempt = maxRetries - 1 then none
      else retryGo call maxRetries fuel (attempt + 1) reinforced
    | .otherError => none

/-- `get_purchase_opinion_with_retry(...)`, control flow only. -/
def get_purchase_opinion_with_retry (call : ℕ → PromptKind → CallOutcome)
    (maxRetries : ℕ) : Option RetryResult :=
  retryGo call maxRetries maxRetries 0 false

/-! ## Token-bucket rate limiter (`survey/executor.TokenBucketRateLimiter`)

Wall-clock time is made explicit: the state carries `now` (idealized
`time.time()`), `time.sleep(t)` advances it by exactly `t`, and the
while-loop gets a fuel bound.  All arithmetic is exact (`ℚ`). -/

/-- `RateLimitConfig` (the `requests_per_day` field is never read by
`acquire`/`_refill`). -/
structure RateLimitConfig where
  requests_per_minute : ℚ
  tokens_per_minute : ℚ
  requests_per_day : ℚ
  burst_multiplier : ℚ
  deriving Repr, DecidableEq

/-- The mutable limiter state plus the model clock. -/
structure LimiterState where
  request_tokens : ℚ
  token_tokens : ℚ
  last_refill : ℚ
  now : ℚ
  deriving Repr, DecidableEq

/-- `self.request_capacity = requests_per_minute * burst_multiplier`. -/
def requestCapacity (cfg : RateLimitConfig) : ℚ :=
  cfg.requests_per_minute * cfg.burst_multiplier

/-- `self.token_capacity = tokens_per_minute * burst_multiplier`. -/
def tokenCapacity (cfg : RateLimitConfig) : ℚ :=
  cfg.tokens_per_minute * cfg.burst_multiplier

/-- `TokenBucketRateLimiter._refill()`. -/
def refill (cfg : RateLimitConfig) (s : LimiterState) : LimiterState :=
  let elapsed := s.now - s.last_refill
  { s with
    last_refill := s.now
    request_tokens :=
      min (requestCapacity cfg) (s.request_tokens + elapsed * (cfg.requests_per_minute / 60))
    token_tokens :=
      min (tokenCapacity cfg) (s.token_tokens + elapsed * (cfg.tokens_per_minute / 60)) }

/-- `time.sleep(t)` in the model: the clock advances by exactly `t`. -/
def sleepFor (t : ℚ) (s : LimiterState) : LimiterState :=
  { s with now := s.now + t }

/-- The `while self.request_tokens < 1 or self.token_tokens < estimated_tokens`
loop of `acquire`, returning the pre-debit state and the accumulated wait.
`fuel` bounds the number of iterations; the source loop has no bound. -/
def acquireLoop (cfg : RateLimitConfig) (est : ℚ) :
    ℕ → LimiterState → ℚ → Option (LimiterState × ℚ)
  | 0, s, totalWait =>
    if s.request_tokens < 1 ∨ s.token_tokens < est then none
    else some (s, totalWait)
  | fuel + 1, s, totalWait =>
    if s.request_tokens < 1 ∨ s.token_tokens < est then
      let s1 := refill cfg s
      let wait_for_request :=
        if s1.request_tokens < 1 then
          (1 - s1.request_tokens) / (cfg.requests_per_minute / 60)
        else 0
      let wait_for_tokens :=
        if s1.token_tokens < est then
          (est - s1.token_tokens) / (cfg.tokens_per_minute / 60)
        else 0
      let wait_time := min (max (max wait_for_request wait_for_tokens) (1/10)) 60
      let s2 := refill cfg (sleepFor wait_time s1)
      acquireLoop cfg est fuel s2 (totalWait + wait_time)
    else some (s, totalWait)

/-- The debit performed once both buckets suffice. -/
def debit (est : ℚ) (s : LimiterState) : LimiterState :=
  { s with request_tokens := s.request_tokens - 1, token_tokens := s.token_tokens - est }

/-- `TokenBucketRateLimiter.acquire(estimated_tokens)`: initial refill,
blocking loop, then the atomic debit of both buckets.  Returns the final
state and the total wait time. -/
def acquire (cfg : RateLimitConfig) (est : ℚ) (fuel : ℕ) (s : LimiterState) :
    Option (LimiterState × ℚ) :=
  match acquireLoop cfg est fuel (refill cfg s) 0 with
  | some (p, w) => some (debit est p, w)
  | none => none

/-! ## Seeded population generation
(`backend/app/services/persona_generation.generate_personas_for_archetype`)

numpy's global RNG is abstracted as an explicit-state interface: drawing
functions are arbitrary but deterministic functions of the RNG state, and
`np.random.seed(s)` replaces the ambient state by one computed from `s`
alone.  `np.random.default_rng(seed)` builds a fresh local state from its
seed alone. -/

/-- Deterministic interface to `np.random` with state type `S`. -/
structure NpRandom (S : Type) where
  seed : ℤ → S
  normal : ℚ → ℚ → ℕ → S → List ℚ × S
  choice : List String → ℕ → List ℚ → S → List String × S
  randint : ℤ → ℤ → S → ℤ × S
  default_rng : ℤ → S
  random : S → ℚ × S
  integers : ℤ → ℤ → S → ℤ × S
  choice_subset : List String → ℤ → S → List String × S

/-- The archetype fields read by the generator (dict lookups with their
defaults already resolved). -/
structure Demographics where
  age_range : ℚ × ℚ
  gender_distribution : List (String × ℚ)

/-- An archetype dict, fields resolved. -/
structure Archetype where
  segment_id : Option String
  segment_name : Option String
  demographics : Demographics
  income_level : String
  category_usage : String
  shopping_behavior : String
  location : String
  core_traits : List String
  pain_points : List String
  decision_drivers : List String

/-- `_get_income_distribution_for_level` (unknown level falls back to
`"mid"`). -/
def incomeDistributionForLevel (income_level : String) : List (String × ℚ) :=
  if income_level = "none" then
    [("none", 6/10), ("low", 3/10), ("mid", 1/10), ("high", 0)]
  else if income_level = "low" then
    [("none", 2/10), ("low", 5/10), ("mid", 25/100), ("high", 5/100)]
  else if income_level = "high" then
    [("none", 0), ("low", 1/10), ("mid", 3/10), ("high", 6/10)]
  else
    [("none", 5/100), ("low", 2/10), ("mid", 55/100), ("high", 2/10)]

/-- `_get_category_usage_distribution`. -/
def categoryUsageDistribution (base : String) : List (String × ℚ) :=
  if base = "high" then
    [("high", 4/10), ("medium", 35/100), ("low", 25/100)]
  else if base = "low" then
    [("high", 15/100), ("medium", 35/100), ("low", 5/10)]
  else
    [("high", 25/100), ("medium", 5/10), ("low", 25/100)]

/-- `_get_shopping_behavior_distribution` (note the Python `b not in
base_behavior` substring test). -/
def shoppingBehaviorDistribution (base : String) : List (String × ℚ) :=
  let all_behaviors := ["smart_shopper", "impulsive", "budget", "quality", "price_sensitive"]
  let remaining := all_behaviors.filter
    (fun b => !(b == base) && !(containsSub b.data base.data))
  let remaining_prob : ℚ := if remaining.isEmpty then 0 else (6/10) / remaining.length
  (base, 4/10) :: remaining.map (fun b => (b, remaining_prob))

/-- `np.clip(x, lo, hi)`. -/
def clipQ (lo hi x : ℚ) : ℚ :=
  min hi (max lo x)

/-- `.astype(int)`: truncation toward zero. -/
def truncToInt (q : ℚ) : ℤ :=
  if 0 ≤ q then ⌊q⌋ else ⌈q⌉

/-- `_vary_pain_points(core_points, seed)`: a fresh `default_rng(seed)`,
so the result depends only on the list and the per-index seed. -/
def vary_pain_points {S : Type} (impl : NpRandom S)
    (core_points : List String) (seed : ℤ) : List String :=
  let rng := impl.default_rng seed
  if core_points.length ≤ 1 then core_points
  else
    let (x, rng1) := impl.random rng
    if x < 6/10 then core_points
    else
      let (k, rng2) := impl.integers 1 (core_points.length + 1) rng1
      (impl.choice_subset core_points k rng2).1

/-- `_vary_decision_drivers(core_drivers, seed)`: seeded with `seed + 1000`,
70% threshold. -/
def vary_decision_drivers {S : Type} (impl : NpRandom S)
    (core_drivers : List String) (seed : ℤ) : List String :=
  let rng := impl.default_rng (seed + 1000)
  if core_drivers.length ≤ 1 then core_drivers
  else
    let (x, rng1) := impl.random rng
    if x < 7/10 then core_drivers
    else
      let (k, rng2) := impl.integers 1 (core_drivers.length + 1) rng1
      (impl.choice_subset core_drivers k rng2).1

/-- `income_ranges.get(bracket, income_ranges["mid"])` for each currency. -/
def incomeRange (currency : String) (bracket : String) : ℤ × ℤ :=
  if currency = "KRW" then
    if bracket = "none" then (0, 500000)
    else if bracket = "low" then (500000, 1500000)
    else if bracket = "high" then (3000000, 5000000)
    else (1500000, 3000000)
  else
    if bracket = "none" then (0, 500)
    else if bracket = "low" then (500, 2000)
    else if bracket = "high" then (5000, 10000)
    else (2000, 5000)

/-- The per-bracket `np.random.randint(*range)` list comprehension,
threading the RNG state left to right. -/
def drawIncomes {S : Type} (impl : NpRandom S) (currency : String) :
    List String → S → List ℤ × S
  | [], g => ([], g)
  | b :: bs, g =>
    let (v, g1) := impl.randint (incomeRange currency b).1 (incomeRange currency b).2 g
    let (vs, g2) := drawIncomes impl currency bs g1
    (v :: vs, g2)

/-- A generated persona dict.  The `id` field keeps the numeric part of
`f"PERSONA_{start_id + i + 1:05d}"`. -/
structure GeneratedPersona where
  id : ℕ
  segment_id : Option String
  segment_name : Option String
  age : ℤ
  gender : String
  income_bracket : String
  income_value : ℤ
  currency : String
  location : String
  category_usage : String
  shopping_behavior : String
  core_traits : List String
  pain_points : List String
  decision_drivers : List String

/-- `generate_personas_for_archetype(archetype, count, start_id, currency,
random_seed)` over the RNG interface, with the ambient global RNG state
`g` passed in (it is replaced when `random_seed is not None`). -/
def generate_personas_for_archetype {S : Type} (impl : NpRandom S)
    (arch : Archetype) (count : ℕ) (start_id : ℕ) (currency : String)
    (random_seed : Option ℤ) (g : S) : List GeneratedPersona × S :=
  let g := match random_seed with
    | some s => impl.seed s
    | none => g
  let age_range := arch.demographics.age_range
  let age_mean := (age_range.1 + age_range.2) / 2
  let age_std := (age_range.2 - age_range.1) / 6
  let resAges := impl.normal age_mean age_std count g
  let ages := resAges.1.map (fun a => truncToInt (clipQ age_range.1 age_range.2 a))
  let g := resAges.2
  let gender_choices := arch.demographics.gender_distribution.map Prod.fst
  let gender_weights := arch.demographics.gender_distribution.map Prod.snd
  let gender_probs := gender_weights.map (fun w => w / gender_weights.sum)
  let resGenders := impl.choice gender_choices count gender_probs g
  let genders := resGenders.1
  let g := resGenders.2
  let income_dist := incomeDistributionForLevel arch.income_level
  let resBrackets := impl.choice (income_dist.map Prod.fst) count (income_dist.map Prod.snd) g
  let income_brackets := resBrackets.1
  let g := resBrackets.2
  let resIncomes := drawIncomes impl currency income_brackets g
  let incomes := resIncomes.1
  let g := resIncomes.2
  let cu_dist := categoryUsageDistribution arch.category_usage
  let resCu := impl.choice (cu_dist.map Prod.fst) count (cu_dist.map Prod.snd) g
  let category_usages := resCu.1
  let g := resCu.2
  let sb_dist := shoppingBehaviorDistribution arch.shopping_behavior
  let resSb := impl.choice (sb_dist.map Prod.fst) count (sb_dist.map Prod.snd) g
  let shopping_behaviors := resSb.1
  let g := resSb.2
  let personas := (List.range count).map (fun i =>
    { id := start_id + i + 1
      segment_id := arch.segment_id
      segment_name := arch.segment_name
      age := ages.getD i 0
      gender := genders.getD i ""
      income_bracket := income_brackets.getD i ""
      income_value := incomes.getD i 0
      currency := currency
      location := arch.location
      category_usage := category_usages.getD i ""
      shopping_behavior := shopping_behaviors.getD i ""
      core_traits := arch.core_traits
      pain_points := vary_pain_points impl arch.pain_points (start_id + i)
      decision_drivers := vary_decision_drivers impl arch.decision_drivers (start_id + i)
      : GeneratedPersona })
  (personas, g)

/-! ## Spec-level accessors shared by several claims -/

/-- The semantic axis squared norm `axis · axis` with `axis = pos - neg`. -/
def axisNormSq (pos neg : EmbQ) : ℚ :=
  dotQ (subQ pos neg) (subQ pos neg)

/-- The unclamped projection `((r - neg) · axis) / (axis · axis)`. -/
def rawProjection (pos neg r : EmbQ) : ℚ :=
  dotQ (subQ r neg) (subQ pos neg) / axisNormSq pos neg

lemma axisNormSq_expand (pos neg : EmbQ) (hlen : pos.length = neg.length) :
    axisNormSq pos neg = normSq pos - 2 * dotQ pos neg + normSq neg := by
  rw [axisNormSq, dotQ_sub_left pos neg _ hlen, dotQ_sub_right pos pos neg hlen,
    dotQ_sub_right neg pos neg hlen, dotQ_comm neg pos]
  simp only [normSq]
  ring

/-- Equal-norm anchors and a response whose dot products with the two
anchors agree project exactly onto the midpoint of the axis. -/
lemma projection_half (pos neg r : EmbQ)
    (hlen : pos.length = neg.length) (hrlen : r.length = neg.length)
    (hN : normSq pos = normSq neg) (ha : axisNormSq pos neg ≠ 0)
    (hdot : dotQ r pos = dotQ r neg) :
    (calculate_projection_with_outlier_detection pos neg r).score = 1/2 := by
  have h' : dotQ (subQ pos neg) (subQ pos neg) ≠ 0 := by
    simpa [axisNormSq] using ha
  have hPP : dotQ pos pos = dotQ neg neg := by
    simpa [normSq] using hN
  have hA : dotQ (subQ r neg) (subQ pos neg) = dotQ neg neg - dotQ pos neg := by
    rw [dotQ_sub_left r neg _ hrlen, dotQ_sub_right r pos neg hlen,
      dotQ_sub_right neg pos neg hlen, hdot, dotQ_comm neg pos]
    ring
  have hD : dotQ (subQ pos neg) (subQ pos neg) =
      2 * (dotQ neg neg - dotQ pos neg) := by
    have := axisNormSq_expand pos neg hlen
    simp only [axisNormSq, normSq] at this
    rw [this, hPP]
    ring
  have hX : dotQ neg neg - dotQ pos neg ≠ 0 := by
    intro h0
    apply h'
    rw [hD, h0, mul_zero]
  have hfrac : (dotQ neg neg - dotQ pos neg) / (2 * (dotQ neg neg - dotQ pos neg)) =
      (1 : ℚ)/2 := by
    rw [div_eq_iff (mul_ne_zero two_ne_zero hX)]
    ring
  simp only [calculate_projection_with_outlier_detection, if_neg h']
  rw [hA, hD, hfrac]
  norm_num

/-! ## Claims -/

/-- C1: for segments with share ratios in [0,1] summing to 1 and any
`total_n ≥ |segments|`, `distribute_samples_by_archetype` (which sorts by
share ratio descending, floors every count but the last and gives the
last the remainder) returns counts that are nonnegative, one per segment,
and sum exactly to `total_n`. -/
theorem distribute_samples_nonneg_and_exact (ratios : List ℚ) (total : ℕ)
    (hrange : ∀ r ∈ ratios, 0 ≤ r ∧ r ≤ 1)
    (hsum : ratios.sum = 1)
    (hn : ratios.length ≤ total) :
    (∀ c ∈ planCounts (distribute_samples_by_archetype ratios total), 0 ≤ c) ∧
    (planCounts (distribute_samples_by_archetype ratios total)).sum = (total : ℤ) ∧
    (distribute_samples_by_archetype ratios total).length = ratios.length := by
  have hperm := sortByShareDesc_perm ratios
  have hsorted_sum : (sortByShareDesc ratios).sum = 1 := by
    rw [hperm.sum_eq, hsum]
  have hne : sortByShareDesc ratios ≠ [] := by
    intro h0
    rw [h0] at hsorted_sum
    simp at hsorted_sum
  refine ⟨?_, ?_, ?_⟩
  · simp only [distribute_samples_by_archetype]
    apply distGo_counts_nonneg
    · intro r hr
      exact (hrange r (hperm.mem_iff.mp hr)).1
    · rw [hsorted_sum]
      push_cast
      simp
  · simp only [distribute_samples_by_archetype]
    rw [distGo_counts_sum _ _ _ hne]
    ring
  · simp only [distribute_samples_by_archetype]
    rw [distGo_length, hperm.length_eq]

/-- Witness for C1: shares [0.5, 0.3, 0.2] with total 7 give counts
[3, 2, 2], nonnegative and summing to 7. -/
theorem distribute_samples_nonneg_and_exact_witness :
    planCounts (distribute_samples_by_archetype [1/2, 3/10, 1/5] 7) = [3, 2, 2] ∧
    (∀ c ∈ planCounts (distribute_samples_by_archetype [1/2, 3/10, 1/5] 7), 0 ≤ c) ∧
    (planCounts (distribute_samples_by_archetype [1/2, 3/10, 1/5] 7)).sum = (7 : ℤ) := by
  have hrange : ∀ r ∈ ([1/2, 3/10, 1/5] : List ℚ), 0 ≤ r ∧ r ≤ 1 := by
    intro r hr
    simp only [List.mem_cons, List.not_mem_nil, or_false] at hr
    rcases hr with rfl | rfl | rfl <;> norm_num
  have hsum : ([1/2, 3/10, 1/5] : List ℚ).sum = 1 := by norm_num
  have hn : ([1/2, 3/10, 1/5] : List ℚ).length ≤ 7 := by norm_num
  refine ⟨?_, (distribute_samples_nonneg_and_exact _ 7 hrange hsum hn).1,
          (distribute_samples_nonneg_and_exact _ 7 hrange hsum hn).2.1⟩
  have hsort : sortByShareDesc [1/2, 3/10, 1/5] = [1/2, 3/10, 1/5] := by
    apply List.mergeSort_of_sorted
    norm_num [List.pairwise_cons]
  have hf1 : ⌊(7 : ℚ) * (1/2)⌋ = 3 := by
    rw [Int.floor_eq_iff] <;> norm_num
  have hf2 : ⌊(7 : ℚ) * (3/10)⌋ = 2 := by
    rw [Int.floor_eq_iff] <;> norm_num
  simp only [distribute_samples_by_archetype, hsort, distGo, planCounts, List.map,
    hf1, hf2]
  norm_num

/-- C4: with `axis · axis = 0` the projection scorer short-circuits to
score 0.5, classified `NORMAL`, not an outlier; otherwise it returns the
clamped raw projection as score, keeps the unclamped raw projection, and
classifies `EXTREME_NEGATIVE` exactly when `raw < 0`, `EXTREME_POSITIVE`
exactly when `raw > 1`, `NORMAL` otherwise — the classification depends
only on where the raw value sits relative to [0,1]. -/
theorem projection_outlier_spec (pos neg r : EmbQ) :
    (axisNormSq pos neg = 0 →
      calculate_projection_with_outlier_detection pos neg r =
        { score := 1/2, raw_projection := 1/2, outlier_type := .NORMAL,
          is_outlier := false }) ∧
    (axisNormSq pos neg ≠ 0 →
      (calculate_projection_with_outlier_detection pos neg r).raw_projection =
          rawProjection pos neg r ∧
      (calculate_projection_with_outlier_detection pos neg r).score =
          min (max (rawProjection pos neg r) 0) 1 ∧
      ((calculate_projection_with_outlier_detection pos neg r).outlier_type =
          .EXTREME_NEGATIVE ↔ rawProjection pos neg r < 0) ∧
      ((calculate_projection_with_outlier_detection pos neg r).outlier_type =
          .EXTREME_POSITIVE ↔ 1 < rawProjection pos neg r) ∧
      ((calculate_projection_with_outlier_detection pos neg r).outlier_type =
          .NORMAL ↔ 0 ≤ rawProjection pos neg r ∧ rawProjection pos neg r ≤ 1) ∧
      ((calculate_projection_with_outlier_detection pos neg r).is_outlier = true ↔
          rawProjection pos neg r < 0 ∨ 1 < rawProjection pos neg r)) := by
  constructor
  · intro h
    simp only [calculate_projection_with_outlier_detection]
    rw [if_pos (by simpa [axisNormSq] using h)]
  · intro h
    have h' : dotQ (subQ pos neg) (subQ pos neg) ≠ 0 := by
      simpa [axisNormSq] using h
    simp only [calculate_projection_with_outlier_detection, if_neg h',
      rawProjection, axisNormSq]
    refine ⟨trivial, trivial, ?_, ?_, ?_, ?_⟩
    · split_ifs with h1 h2 <;> simp_all
    · split_ifs with h1 h2 <;> simp_all
      linarith
    · split_ifs with h1 h2
      · constructor
        · intro hc
          simp at hc
        · rintro ⟨hge, _⟩
          linarith
      · constructor
        · intro hc
          simp at hc
        · rintro ⟨_, hle⟩
          linarith
      · exact ⟨fun _ => ⟨le_of_not_lt h1, le_of_not_lt h2⟩, fun _ => rfl⟩
    · simp only [decide_eq_true_eq]

/-- Witness for C4: degenerate anchors ([1] = [1]) give the 0.5 `NORMAL`
short-circuit; anchors [1,0]/[0,1] with response [2,0] exercise the
non-degenerate branch. -/
theorem projection_outlier_spec_witness :
    calculate_projection_with_outlier_detection [1] [1] [5] =
      { score := 1/2, raw_projection := 1/2, outlier_type := .NORMAL,
        is_outlier := false } ∧
    (calculate_projection_with_outlier_detection [1, 0] [0, 1] [2, 0]).raw_projection =
      rawProjection [1, 0] [0, 1] [2, 0] :=
  ⟨(projection_outlier_spec [1] [1] [5]).1 (by norm_num [axisNormSq, dotQ, subQ]),
   ((projection_outlier_spec [1, 0] [0, 1] [2, 0]).2
      (by norm_num [axisNormSq, dotQ, subQ])).1⟩

/-- C7: with a fixed `random_seed`, `generate_personas_for_archetype` is
deterministic — `np.random.seed` replaces the ambient global RNG state,
and the per-index `default_rng(start_id + i)` sub-seeds of
`_vary_pain_points` / `_vary_decision_drivers` depend only on the index,
so two calls with identical arguments agree no matter what global RNG
state each inherits. -/
theorem generate_personas_for_archetype_deterministic {S : Type}
    (impl : NpRandom S) (arch : Archetype) (count start_id : ℕ)
    (currency : String) (s : ℤ) (g1 g2 : S) :
    generate_personas_for_archetype impl arch count start_id currency (some s) g1 =
    generate_personas_for_archetype impl arch count start_id currency (some s) g2 :=
  rfl

/-- C2 counterexample: (a) with the orthogonal unit anchors pos = [1,0]
and neg = [0,1], the simple method scores the positive anchor embedding
`((cos(pos,pos) - cos(pos,neg))/2 + 1)/2 = ((1 - 0)/2 + 1)/2 = 3/4`,
not 1.0; (b) with the unequal-norm anchors pos = [2,0], neg = [0,1], the
response r = [1,1] is equally cosine-similar to both anchors (both
cosines are 1/sqrt 2) yet the projection method scores it 2/5, not 0.5. -/
theorem anchor_scoring_counterexamples :
    (calculate_simple [1, 0] [0, 1] [1, 0] = 3/4 ∧ (3/4 : ℝ) ≠ 1) ∧
    (cosine_similarity [1, 1] [2, 0] = cosine_similarity [1, 1] [0, 1] ∧
     (calculate_projection_with_outlier_detection [2, 0] [0, 1] [1, 1]).score = 2/5 ∧
     (2/5 : ℚ) ≠ 1/2) := by
  refine ⟨⟨?_, by norm_num⟩, ?_, ?_, by norm_num⟩
  · have hpos : cosine_similarity [1, 0] [1, 0] = 1 :=
      cosine_self _ (by norm_num [normSq, dotQ])
    have hneg : cosine_similarity ([1, 0] : EmbQ) [0, 1] = 0 := by
      rw [cosine_similarity, if_neg (by norm_num [normSq, dotQ])]
      norm_num [dotQ]
    simp only [calculate_simple, hpos, hneg]
    norm_num
  · have hs2 : normR [1, 1] = Real.sqrt 2 := by
      rw [normR, show normSq ([1, 1] : EmbQ) = 2 by norm_num [normSq, dotQ]]
      norm_num
    have h20 : normR [2, 0] = 2 := by
      rw [normR, show normSq ([2, 0] : EmbQ) = 4 by norm_num [normSq, dotQ],
        show ((4 : ℚ) : ℝ) = (2 : ℝ) ^ 2 by norm_num, Real.sqrt_sq (by norm_num)]
    have h01 : normR [0, 1] = 1 := by
      rw [normR, show normSq ([0, 1] : EmbQ) = 1 by norm_num [normSq, dotQ]]
      norm_num [Real.sqrt_one]
    have hsqrt2 : (0 : ℝ) < Real.sqrt 2 := Real.sqrt_pos.mpr (by norm_num)
    rw [cosine_similarity, if_neg (by norm_num [normSq, dotQ]),
      cosine_similarity, if_neg (by norm_num [normSq, dotQ]), hs2, h20, h01,
      show dotQ [1, 1] [2, 0] = 2 by norm_num [dotQ],
      show dotQ [1, 1] [0, 1] = 1 by norm_num [dotQ]]
    rw [div_eq_div_iff (by positivity) (by positivity)]
    push_cast
    ring
  · have hne : dotQ (subQ [2, 0] [0, 1]) (subQ [2, 0] [0, 1]) ≠ 0 := by
      norm_num [dotQ, subQ]
    simp only [calculate_projection_with_outlier_detection, if_neg hne]
    rw [show dotQ (subQ [1, 1] [0, 1]) (subQ [2, 0] [0, 1]) = 2 by
        norm_num [dotQ, subQ],
      show dotQ (subQ [2, 0] [0, 1]) (subQ [2, 0] [0, 1]) = 5 by
        norm_num [dotQ, subQ]]
    norm_num

/-- C2 (amended): (i) the projection method scores the positive anchor
1.0 and the negative anchor 0.0 whenever `axis · axis ≠ 0`; (ii) an
embedding equally cosine-similar to both anchors scores 0.5 under the
simple method; (iii) for anchors of nonzero norm, the simple method
scores the anchors 1.0 / 0.0 if and only if `cos(pos,neg) = -1`
(antipodal anchors); (iv) under the projection method an
equally-cosine-similar embedding scores 0.5 when the anchors have equal
norms (the counterexample shows this fails for unequal norms). -/
theorem anchor_scoring_amended (pos neg r : EmbQ) :
    (axisNormSq pos neg ≠ 0 →
      (calculate_projection_with_outlier_detection pos neg pos).score = 1 ∧
      (calculate_projection_with_outlier_detection pos neg neg).score = 0) ∧
    (cosine_similarity r pos = cosine_similarity r neg →
      calculate_simple pos neg r = 1/2) ∧
    (normSq pos ≠ 0 → normSq neg ≠ 0 →
      ((calculate_simple pos neg pos = 1 ∧ calculate_simple pos neg neg = 0) ↔
        cosine_similarity pos neg = -1)) ∧
    (pos.length = neg.length → r.length = neg.length →
      normSq pos = normSq neg → axisNormSq pos neg ≠ 0 →
      cosine_similarity r pos = cosine_similarity r neg →
      (calculate_projection_with_outlier_detection pos neg r).score = 1/2) := by
  refine ⟨?_, ?_, ?_, ?_⟩
  · intro ha
    have h' : dotQ (subQ pos neg) (subQ pos neg) ≠ 0 := by
      simpa [axisNormSq] using ha
    constructor
    · simp only [calculate_projection_with_outlier_detection, if_neg h']
      rw [div_self h']
      norm_num
    · simp only [calculate_projection_with_outlier_detection, if_neg h']
      have hz : dotQ (subQ neg neg) (subQ pos neg) = 0 := by
        rw [subQ_self]
        exact dotQ_replicate_zero _ _
      rw [hz, zero_div]
      norm_num
  · intro hcos
    simp only [calculate_simple, hcos]
    norm_num
  · intro hp0 hn0
    have h1 : cosine_similarity pos pos = 1 := cosine_self pos hp0
    have h2 : cosine_similarity neg neg = 1 := cosine_self neg hn0
    constructor
    · rintro ⟨ha, _⟩
      simp only [calculate_simple, h1] at ha
      linarith
    · intro hm
      have h3 : cosine_similarity neg pos = -1 := by
        rw [cosine_comm]
        exact hm
      constructor
      · simp only [calculate_simple, h1, hm]
        norm_num
      · simp only [calculate_simple, h3, h2]
        norm_num
  · intro hlen hrlen hN ha hcos
    apply projection_half pos neg r hlen hrlen hN ha
    by_cases hr0 : normSq r = 0
    · rw [normSq_eq_zero_iff_dot_all r hr0 pos, normSq_eq_zero_iff_dot_all r hr0 neg]
    · have hp0 : normSq pos ≠ 0 := by
        intro hpz
        apply ha
        rw [axisNormSq_expand pos neg hlen,
          show dotQ pos neg = 0 from normSq_eq_zero_iff_dot_all pos hpz neg,
          hpz, ← hN, hpz]
        ring
      have hq0 : normSq neg ≠ 0 := hN ▸ hp0
      rw [cosine_similarity, cosine_similarity, if_neg (by tauto),
        if_neg (by tauto)] at hcos
      have hnormeq : normR pos = normR neg := by
        rw [normR, normR, hN]
      rw [hnormeq] at hcos
      have hden : normR r * normR neg ≠ 0 :=
        mul_ne_zero (normR_ne_zero r hr0) (normR_ne_zero neg hq0)
      rw [div_eq_div_iff hden hden] at hcos
      have := mul_right_cancel₀ hden hcos
      exact_mod_cast this

/-- Witness for the amended C2 at pos = [1,0], neg = [-1,0] (antipodal,
equal norms, nonzero axis) and the equidistant response r = [0,1]. -/
theorem anchor_scoring_amended_witness :
    ((calculate_projection_with_outlier_detection [1, 0] [-1, 0] [1, 0]).score = 1 ∧
     (calculate_projection_with_outlier_detection [1, 0] [-1, 0] [-1, 0]).score = 0) ∧
    calculate_simple [1, 0] [-1, 0] [0, 1] = 1/2 ∧
    (calculate_simple [1, 0] [-1, 0] [1, 0] = 1 ∧
     calculate_simple [1, 0] [-1, 0] [-1, 0] = 0) ∧
    (calculate_projection_with_outlier_detection [1, 0] [-1, 0] [0, 1]).score = 1/2 := by
  have haxis : axisNormSq [1, 0] [-1, 0] ≠ 0 := by
    norm_num [axisNormSq, dotQ, subQ]
  have hcos_eq : cosine_similarity [0, 1] [1, 0] = cosine_similarity [0, 1] [-1, 0] := by
    rw [cosine_similarity, if_neg (by norm_num [normSq, dotQ]),
      cosine_similarity, if_neg (by norm_num [normSq, dotQ])]
    norm_num [dotQ]
  have hcos_anti : cosine_similarity [1, 0] [-1, 0] = -1 := by
    rw [cosine_similarity, if_neg (by norm_num [normSq, dotQ])]
    norm_num [dotQ, normR, normSq, Real.sqrt_one]
  exact ⟨(anchor_scoring_amended [1, 0] [-1, 0] [0, 1]).1 haxis,
    (anchor_scoring_amended [1, 0] [-1, 0] [0, 1]).2.1 hcos_eq,
    ((anchor_scoring_amended [1, 0] [-1, 0] [0, 1]).2.2.1
      (by norm_num [normSq, dotQ]) (by norm_num [normSq, dotQ])).mpr hcos_anti,
    (anchor_scoring_amended [1, 0] [-1, 0] [0, 1]).2.2.2 rfl rfl
      (by norm_num [normSq, dotQ]) haxis hcos_eq⟩

/-- C3 counterexample: for pos = [1,0], neg = [0,1] and the single
response [3,4] (all nonzero), the batch simple path divides by
`‖r‖·‖anchor‖ + 1e-10` while the single-item path divides by
`‖r‖·‖anchor‖`, so the scores differ (9/20 vs. a slightly larger value). -/
theorem calculate_batch_simple_ne_single :
    calculate_batch_simple [1, 0] [0, 1] [[3, 4]] ≠
      [calculate_simple [1, 0] [0, 1] [3, 4]] := by
  have hn25 : normSq ([3, 4] : EmbQ) = 25 := by norm_num [normSq, dotQ]
  have h5 : normR [3, 4] = 5 := by
    rw [normR, hn25, show (((25 : ℚ)) : ℝ) = (5 : ℝ) ^ 2 by norm_num,
      Real.sqrt_sq (by norm_num)]
  have h1 : normR [1, 0] = 1 := by
    rw [normR, show normSq ([1, 0] : EmbQ) = 1 by norm_num [normSq, dotQ]]
    norm_num [Real.sqrt_one]
  have h0 : normR [0, 1] = 1 := by
    rw [normR, show normSq ([0, 1] : EmbQ) = 1 by norm_num [normSq, dotQ]]
    norm_num [Real.sqrt_one]
  have hcp : cosine_similarity [3, 4] [1, 0] = 3/5 := by
    rw [cosine_similarity, if_neg (by norm_num [normSq, dotQ]), h5, h1]
    norm_num [dotQ]
  have hcn : cosine_similarity [3, 4] [0, 1] = 4/5 := by
    rw [cosine_similarity, if_neg (by norm_num [normSq, dotQ]), h5, h0]
    norm_num [dotQ]
  have hs : calculate_simple [1, 0] [0, 1] [3, 4] = 9/20 := by
    simp only [calculate_simple, hcp, hcn]
    norm_num
  simp only [calculate_batch_simple, List.map, hs, h5, h1, h0]
  intro hEq
  simp only [List.cons.injEq, and_true] at hEq
  rw [show dotQ [3, 4] [1, 0] = 3 by norm_num [dotQ],
    show dotQ [3, 4] [0, 1] = 4 by norm_num [dotQ]] at hEq
  norm_num at hEq

/-- C3 (amended): the batch projection scores coincide elementwise and in
order with single-item projection calls, for every list of embeddings;
the simple method fails this because of the batch-only `1e-10`
denominator stabilizer. -/
theorem calculate_batch_projection_eq_single (pos neg : EmbQ) (rs : List EmbQ) :
    calculate_batch_projection_scores pos neg rs =
      rs.map (fun r => calculate_projection pos neg r) := by
  by_cases h : dotQ (subQ pos neg) (subQ pos neg) = 0
  · simp only [calculate_batch_projection_scores, if_pos h]
    induction rs with
    | nil => simp
    | cons v vs ih =>
      simp only [List.map_cons, List.cons.injEq]
      refine ⟨?_, ih⟩
      rw [calculate_projection]
      simp only [calculate_projection_with_outlier_detection, if_pos h]
  · simp only [calculate_batch_projection_scores, if_neg h]
    induction rs with
    | nil => simp
    | cons v vs ih =>
      simp only [List.map_cons, List.cons.injEq]
      refine ⟨?_, ih⟩
      rw [calculate_projection]
      simp only [calculate_projection_with_outlier_detection, if_neg h]

/-- C5: with the default thresholds, anchor similarity ≥ 0.8 yields an
invalid critical result carrying the extreme-polar suggestion (hard
failure); 0.6 ≤ similarity < 0.8 yields a valid warning-level result
carrying the high-contrast suggestion (non-blocking); similarity < 0.6
passes cleanly with level "ok" and no suggestion. -/
theorem validate_anchor_thresholds (pos neg : EmbQ) :
    (SIMILARITY_CRITICAL_THRESHOLD ≤ cosine_similarity pos neg →
      validate_anchor_orthogonality pos neg
          SIMILARITY_WARNING_THRESHOLD SIMILARITY_CRITICAL_THRESHOLD =
        { is_valid := false, similarity := cosine_similarity pos neg,
          warning_level := "critical",
          suggested_alternative := some SUGGESTED_extreme_polar }) ∧
    (SIMILARITY_WARNING_THRESHOLD ≤ cosine_similarity pos neg →
      cosine_similarity pos neg < SIMILARITY_CRITICAL_THRESHOLD →
      validate_anchor_orthogonality pos neg
          SIMILARITY_WARNING_THRESHOLD SIMILARITY_CRITICAL_THRESHOLD =
        { is_valid := true, similarity := cosine_similarity pos neg,
          warning_level := "warning",
          suggested_alternative := some SUGGESTED_high_contrast }) ∧
    (cosine_similarity pos neg < SIMILARITY_WARNING_THRESHOLD →
      validate_anchor_orthogonality pos neg
          SIMILARITY_WARNING_THRESHOLD SIMILARITY_CRITICAL_THRESHOLD =
        { is_valid := true, similarity := cosine_similarity pos neg,
          warning_level := "ok", suggested_alternative := none }) := by
  refine ⟨?_, ?_, ?_⟩
  · intro h
    simp only [validate_anchor_orthogonality]
    rw [if_pos h]
  · intro h1 h2
    simp only [validate_anchor_orthogonality]
    rw [if_neg (not_le.mpr h2), if_pos h1]
  · intro h
    have hcrit : cosine_similarity pos neg < SIMILARITY_CRITICAL_THRESHOLD :=
      h.trans_le (by
        rw [SIMILARITY_WARNING_THRESHOLD, SIMILARITY_CRITICAL_THRESHOLD]
        norm_num)
    simp only [validate_anchor_orthogonality]
    rw [if_neg (not_le.mpr hcrit), if_neg (not_le.mpr h)]

/-- Witness for C5: identical anchors (similarity 1) are critical,
anchors [1,0]/[3,4] (similarity 0.6) warn, orthogonal anchors
(similarity 0) pass. -/
theorem validate_anchor_thresholds_witness :
    validate_anchor_orthogonality [1, 0] [1, 0]
        SIMILARITY_WARNING_THRESHOLD SIMILARITY_CRITICAL_THRESHOLD =
      { is_valid := false, similarity := cosine_similarity [1, 0] [1, 0],
        warning_level := "critical",
        suggested_alternative := some SUGGESTED_extreme_polar } ∧
    validate_anchor_orthogonality [1, 0] [3, 4]
        SIMILARITY_WARNING_THRESHOLD SIMILARITY_CRITICAL_THRESHOLD =
      { is_valid := true, similarity := cosine_similarity [1, 0] [3, 4],
        warning_level := "warning",
        suggested_alternative := some SUGGESTED_high_contrast } ∧
    validate_anchor_orthogonality [1, 0] [0, 1]
        SIMILARITY_WARNING_THRESHOLD SIMILARITY_CRITICAL_THRESHOLD =
      { is_valid := true, similarity := cosine_similarity [1, 0] [0, 1],
        warning_level := "ok", suggested_alternative := none } := by
  have hunit : normR [1, 0] = 1 := by
    rw [normR, show normSq ([1, 0] : EmbQ) = 1 by norm_num [normSq, dotQ]]
    norm_num [Real.sqrt_one]
  have h34 : normR [3, 4] = 5 := by
    rw [normR, show normSq ([3, 4] : EmbQ) = 25 by norm_num [normSq, dotQ],
      show (((25 : ℚ)) : ℝ) = (5 : ℝ) ^ 2 by norm_num, Real.sqrt_sq (by norm_num)]
  have hcs : cosine_similarity [1, 0] [1, 0] = 1 :=
    cosine_self _ (by norm_num [normSq, dotQ])
  have hcw : cosine_similarity [1, 0] [3, 4] = 3/5 := by
    rw [cosine_similarity, if_neg (by norm_num [normSq, dotQ]), hunit, h34]
    norm_num [dotQ]
  have hco : cosine_similarity ([1, 0] : EmbQ) [0, 1] = 0 := by
    rw [cosine_similarity, if_neg (by norm_num [normSq, dotQ])]
    norm_num [dotQ]
  refine ⟨(validate_anchor_thresholds [1, 0] [1, 0]).1 ?_,
    (validate_anchor_thresholds [1, 0] [3, 4]).2.1 ?_ ?_,
    (validate_anchor_thresholds [1, 0] [0, 1]).2.2 ?_⟩
  · rw [hcs, SIMILARITY_CRITICAL_THRESHOLD]
    norm_num
  · rw [hcw, SIMILARITY_WARNING_THRESHOLD]
  · rw [hcw, SIMILARITY_CRITICAL_THRESHOLD]
    norm_num
  · rw [hco, SIMILARITY_WARNING_THRESHOLD]
    norm_num

/-- A candidate stream for C6: the first generated persona matches the
gender filter below, all later candidates do not. -/
def genSampleC6 : ℕ → Persona :=
  fun n =>
    if n = 0 then ⟨30, "Female", "Seoul", "High", "Doctor"⟩
    else ⟨30, "Male", "Seoul", "High", "Doctor"⟩

/-- A gender-only target filter for C6. -/
def targetC6 : TargetDemographics :=
  ⟨none, some ["Female"], none, none, none⟩

/-- C6 counterexample: asking for 2 matching personas with 3 attempts
while only 1 candidate matches makes `generate_personas_targeted` raise
`ValueError` (modelled `Except.error`) carrying only the count 1 — the
partial population of one valid persona is NOT returned. -/
theorem targeted_shortfall_is_raised_not_returned :
    generate_personas_targeted genSampleC6 2 targetC6 3 = Except.error 1 := by
  rfl

/-- C6 (amended): every produced persona matches the filters, and when
the bounded attempt loop falls short of `sample_size` the function raises
a `ValueError` (modelled as `Except.error`) reporting how many valid
profiles were produced — the partial population is discarded, not
returned; only when the target is reached is the population returned. -/
theorem targeted_generation_shortfall_spec (gen : ℕ → Persona)
    (t : TargetDemographics) (sampleSize maxAttempts : ℕ) :
    (∀ p ∈ (targetedGo gen t sampleSize maxAttempts 0 []).1,
        matchesTarget t p = true) ∧
    ((targetedGo gen t sampleSize maxAttempts 0 []).1.length < sampleSize →
      generate_personas_targeted gen sampleSize t maxAttempts =
        Except.error (targetedGo gen t sampleSize maxAttempts 0 []).1.length) ∧
    (sampleSize ≤ (targetedGo gen t sampleSize maxAttempts 0 []).1.length →
      generate_personas_targeted gen sampleSize t maxAttempts =
        Except.ok (targetedGo gen t sampleSize maxAttempts 0 []).1) := by
  refine ⟨targetedGo_matches gen t sampleSize maxAttempts 0 [] (by simp), ?_, ?_⟩
  · intro h
    simp only [generate_personas_targeted]
    rw [if_pos h]
  · intro h
    simp only [generate_personas_targeted]
    rw [if_neg (not_lt.mpr h)]

/-- Witness for the amended C6: the shortfall run errors with count 1;
lowering the target to 1 succeeds with the matching persona. -/
theorem targeted_generation_shortfall_spec_witness :
    generate_personas_targeted genSampleC6 2 targetC6 3 =
      Except.error (targetedGo genSampleC6 targetC6 2 3 0 []).1.length ∧
    generate_personas_targeted genSampleC6 1 targetC6 3 =
      Except.ok (targetedGo genSampleC6 targetC6 1 3 0 []).1 :=
  ⟨(targeted_generation_shortfall_spec genSampleC6 targetC6 2 3).2.1 (by decide),
   (targeted_generation_shortfall_spec genSampleC6 targetC6 1 3).2.2 (by decide)⟩

/-- The scenario response text `I'd give this 8/10, pretty good value`
(apostrophe spliced in). -/
def testResponseC8 : String :=
  "I" ++ apoS ++ "d give this 8/10, pretty good value"

/-- A response that passes validation, for exercising the retry. -/
def validResponseC8 : String :=
  "I would definitely buy this because it fits my budget and lifestyle."

/-- Oracle for C8: first call returns the numeric-rating response, later
calls a valid one. -/
def callC8 : ℕ → PromptKind → CallOutcome :=
  fun n _ => if n = 0 then .success testResponseC8 else .success validResponseC8

/-- C8: the scenario text fails validation with the numeric-rating reason
(first matching pattern is `\d+/\d+`, index 1), and in the retry loop a
numeric-rating validation failure with budget remaining makes the next
attempt run with the reinforced prompt. -/
theorem numeric_rating_validation_and_reinforced_retry :
    validate_llm_response testResponseC8 = (false, .numericRating 1) ∧
    (∀ (call : ℕ → PromptKind → CallOutcome) (maxRetries fuel attempt : ℕ)
       (text : String) (reinforced : Bool),
      call attempt (if reinforced then .reinforced else .survey) = .success text →
      (validate_llm_response text).1 = false →
      msgMentionsNumericRating (validate_llm_response text).2 = true →
      attempt < maxRetries - 1 →
      retryGo call maxRetries (fuel + 1) attempt reinforced =
        retryGo call maxRetries fuel (attempt + 1) true) := by
  constructor
  · decide
  · intro call maxRetries fuel attempt text reinforced hcall hval hmsg hlt
    rcases hv : validate_llm_response text with ⟨b, msg⟩
    rw [hv] at hval hmsg
    simp only at hval
    subst hval
    have hdec : decide (attempt < maxRetries - 1) = true := decide_eq_true hlt
    simp only [retryGo, hcall, hv, hmsg, hdec, Bool.and_self, if_true]

/-- Witness for C8: with the concrete oracle, the first attempt (survey
prompt) fails on the numeric rating and the loop continues reinforced. -/
theorem numeric_rating_validation_and_reinforced_retry_witness :
    validate_llm_response testResponseC8 = (false, .numericRating 1) ∧
    retryGo callC8 3 3 0 false = retryGo callC8 3 2 1 true :=
  ⟨(numeric_rating_validation_and_reinforced_retry).1,
   (numeric_rating_validation_and_reinforced_retry).2 callC8 3 2 0 testResponseC8 false
     rfl (by decide) (by decide) (by norm_num)⟩

lemma acquireLoop_sound (cfg : RateLimitConfig) (est : ℚ) (fuel : ℕ) :
    ∀ (s : LimiterState) (tw : ℚ) (p : LimiterState) (w : ℚ),
      acquireLoop cfg est fuel s tw = some (p, w) →
      1 ≤ p.request_tokens ∧ est ≤ p.token_tokens := by
  induction fuel with
  | zero =>
    intro s tw p w h
    simp only [acquireLoop] at h
    split at h
    · cases h
    · rename_i hc
      push_neg at hc
      cases h
      exact ⟨hc.1, hc.2⟩
  | succ k ih =>
    intro s tw p w h
    simp only [acquireLoop] at h
    split at h
    · exact ih _ _ _ _ h
    · rename_i hc
      push_neg at hc
      cases h
      exact ⟨hc.1, hc.2⟩

/-- C9: (i) whenever the acquire loop grants, the pre-debit state holds at
least 1 request-token and at least `estimated_tokens` usage-tokens — the
debit never fires on an insufficient bucket, so grants are never early;
(ii) every successful `acquire` factors as such a granted state followed
by the debit of both buckets; (iii) from a freshly-depleted request
bucket (zero tokens, clock just refilled) with ample usage-tokens, a
one-request acquire sleeps and grants after exactly
`60 / requests_per_minute` seconds (given `1 ≤ rpm ≤ 600` so the 0.1 s
floor and 60 s cap do not bind, and a burst capacity of at least one
request). -/
theorem rate_limiter_never_early_and_wait :
    (∀ (cfg : RateLimitConfig) (est : ℚ) (fuel : ℕ) (s : LimiterState)
       (tw : ℚ) (p : LimiterState) (w : ℚ),
      acquireLoop cfg est fuel s tw = some (p, w) →
      1 ≤ p.request_tokens ∧ est ≤ p.token_tokens) ∧
    (∀ (cfg : RateLimitConfig) (est : ℚ) (fuel : ℕ) (s : LimiterState)
       (p : LimiterState) (w : ℚ),
      acquire cfg est fuel s = some (p, w) →
      ∃ q, acquireLoop cfg est fuel (refill cfg s) 0 = some (q, w) ∧
        1 ≤ q.request_tokens ∧ est ≤ q.token_tokens ∧ p = debit est q) ∧
    (∀ (cfg : RateLimitConfig) (est t τ : ℚ),
      est ≤ t → t ≤ tokenCapacity cfg →
      1 ≤ cfg.requests_per_minute → cfg.requests_per_minute ≤ 600 →
      1 ≤ requestCapacity cfg → 0 ≤ cfg.tokens_per_minute →
      ∃ p, acquire cfg est 1 ⟨0, t, τ, τ⟩ =
        some (p, 60 / cfg.requests_per_minute)) := by
  refine ⟨fun cfg est fuel => acquireLoop_sound cfg est fuel, ?_, ?_⟩
  · intro cfg est fuel s p w h
    simp only [acquire] at h
    rcases hq : acquireLoop cfg est fuel (refill cfg s) 0 with _ | ⟨q, w'⟩
    · rw [hq] at h
      cases h
    · rw [hq] at h
      simp only [Option.some.injEq, Prod.mk.injEq] at h
      obtain ⟨rfl, rfl⟩ := h
      obtain ⟨h1, h2⟩ := acquireLoop_sound cfg est fuel _ _ _ _ hq
      exact ⟨q, rfl, h1, h2, rfl⟩
  · intro cfg est t τ h3 h4 h5 h6 h7 h8
    have hrpm0 : (0 : ℚ) < cfg.requests_per_minute := lt_of_lt_of_le one_pos h5
    have hrcap0 : (0 : ℚ) ≤ requestCapacity cfg := le_trans zero_le_one h7
    -- the elapsed-zero refill is a no-op on this state
    have h_refill0 : refill cfg ⟨0, t, τ, τ⟩ = ⟨0, t, τ, τ⟩ := by
      simp only [refill]
      have : τ - τ = 0 := sub_self τ
      simp [this, min_eq_right h4, min_eq_right hrcap0]
    -- the computed waits
    have hw : (1 - (0 : ℚ)) / (cfg.requests_per_minute / 60) =
        60 / cfg.requests_per_minute := by
      rw [sub_zero, one_div_div]
    have h110 : (1 : ℚ)/10 ≤ 60 / cfg.requests_per_minute := by
      rw [div_le_div_iff (by norm_num) hrpm0]
      linarith
    have h60 : 60 / cfg.requests_per_minute ≤ (60 : ℚ) := by
      rw [div_le_iff hrpm0]
      nlinarith
    have hmax0 : max (60 / cfg.requests_per_minute) (0 : ℚ) =
        60 / cfg.requests_per_minute :=
      max_eq_left (le_of_lt (div_pos (by norm_num) hrpm0))
    have hwait : min (max (max (60 / cfg.requests_per_minute) 0) (1/10)) 60 =
        60 / cfg.requests_per_minute := by
      rw [hmax0, max_eq_left h110, min_eq_left h60]
    -- the refill after sleeping the computed wait
    have hsleep : sleepFor (60 / cfg.requests_per_minute) ⟨0, t, τ, τ⟩ =
        ⟨0, t, τ, τ + 60 / cfg.requests_per_minute⟩ := rfl
    have hone : (60 / cfg.requests_per_minute) * (cfg.requests_per_minute / 60) =
        (1 : ℚ) := by
      field_simp
    have h_refill1 : refill cfg ⟨0, t, τ, τ + 60 / cfg.requests_per_minute⟩ =
        ⟨1, min (tokenCapacity cfg)
              (t + (60 / cfg.requests_per_minute) * (cfg.tokens_per_minute / 60)),
          τ + 60 / cfg.requests_per_minute, τ + 60 / cfg.requests_per_minute⟩ := by
      simp only [refill]
      have helapsed : τ + 60 / cfg.requests_per_minute - τ =
          60 / cfg.requests_per_minute := by ring
      simp [helapsed, hone, min_eq_right h7]
    have hwnn : (0 : ℚ) ≤ 60 / cfg.requests_per_minute :=
      le_of_lt (div_pos (by norm_num) hrpm0)
    have htok : est ≤ min (tokenCapacity cfg)
        (t + (60 / cfg.requests_per_minute) * (cfg.tokens_per_minute / 60)) := by
      apply le_min (h3.trans h4)
      have : (0 : ℚ) ≤ (60 / cfg.requests_per_minute) * (cfg.tokens_per_minute / 60) :=
        mul_nonneg hwnn (by positivity)
      linarith
    refine ⟨debit est ⟨1, min (tokenCapacity cfg)
        (t + (60 / cfg.requests_per_minute) * (cfg.tokens_per_minute / 60)),
      τ + 60 / cfg.requests_per_minute, τ + 60 / cfg.requests_per_minute⟩, ?_⟩
    simp only [acquire, h_refill0]
    rw [show acquireLoop cfg est 1 ⟨0, t, τ, τ⟩ 0 =
        some (⟨1, min (tokenCapacity cfg)
            (t + (60 / cfg.requests_per_minute) * (cfg.tokens_per_minute / 60)),
          τ + 60 / cfg.requests_per_minute, τ + 60 / cfg.requests_per_minute⟩,
          0 + 60 / cfg.requests_per_minute) from ?_]
    · rw [zero_add]
    · simp only [acquireLoop]
      rw [if_pos (Or.inl (by norm_num))]
      simp only [h_refill0, hw]
      rw [if_pos (by norm_num : (0 : ℚ) < 1)]
      rw [if_neg (not_lt.mpr h3)]
      rw [hwait, hsleep, h_refill1]
      simp only [acquireLoop]
      rw [if_neg]
      push_neg
      exact ⟨by norm_num, htok⟩

/-- The default configuration (rpm 500, tpm 150000, burst 1.5) for the
C9 witness. -/
def c9cfg : RateLimitConfig := ⟨500, 150000, 10000, 3/2⟩

/-- A freshly-depleted request bucket with a full token bucket at clock
time 100. -/
def c9state : LimiterState := ⟨0, 150000, 100, 100⟩

/-- Witness for C9: a granting loop state holds both required amounts,
and the depleted-bucket acquire waits exactly 60/500 = 0.12 s. -/
theorem rate_limiter_never_early_and_wait_witness :
    ((1 : ℚ) ≤ (⟨500, 150000, 0, 0⟩ : LimiterState).request_tokens ∧
      (1000 : ℚ) ≤ (⟨500, 150000, 0, 0⟩ : LimiterState).token_tokens) ∧
    ∃ p, acquire c9cfg 1000 1 c9state = some (p, 60/500) := by
  constructor
  · have hloop : acquireLoop c9cfg 1000 1 ⟨500, 150000, 0, 0⟩ 0 =
        some (⟨500, 150000, 0, 0⟩, 0) := by
      simp only [acquireLoop]
      rw [if_neg (by push_neg; constructor <;> norm_num)]
    exact rate_limiter_never_early_and_wait.1 c9cfg 1000 1 _ 0 _ 0 hloop
  · exact rate_limiter_never_early_and_wait.2.2 c9cfg 1000 150000 100
      (by norm_num) (by norm_num [tokenCapacity, c9cfg])
      (by norm_num [c9cfg]) (by norm_num [c9cfg])
      (by norm_num [requestCapacity, c9cfg]) (by norm_num [c9cfg])

end SSR
